import Mathlib

/-!
Verification of the auto-vote component of discourse-topic-auto-vote.

The component watches for topics the current user just created (a
creation-notification trigger and a navigation-arrival trigger), checks a
category allow-list policy and per-topic state, deduplicates vote attempts by
topic id in a session-scoped registry, and issues at most one outbound vote
request per topic id.  The definitions below are a shallow embedding of the
JavaScript sources: strings are manipulated as character lists so that every
operation is executable by kernel reduction.
-/

set_option maxRecDepth 4096

/-- Component settings, mirroring the three theme settings consumed by the
sources: auto_vote_enabled, auto_vote_categories (undefined modelled as none)
and auto_vote_debug_mode. -/
structure Settings where
  auto_vote_enabled : Bool
  auto_vote_categories : Option String
  auto_vote_debug_mode : Bool
deriving Repr, DecidableEq

/-- Numeric value of a digit run, most significant digit first. -/
def digitsVal (ds : List Char) : Nat :=
  ds.foldl (fun acc c => acc * 10 + (c.toNat - 48)) 0

/-- Maximal leading digit run of a character list, or none when the list does
not start with a digit.  Used to model JavaScript parseInt(_, 10). -/
def leadingDigitRun (cs : List Char) : Option Nat :=
  let ds := cs.takeWhile Char.isDigit
  if ds.isEmpty then none else some (digitsVal ds)

/-- JavaScript parseInt(s, 10): skip leading whitespace, optional sign, then
the maximal digit prefix; NaN (none) when no digit follows. -/
def parseIntJs (cs : List Char) : Option Int :=
  let cs := cs.dropWhile Char.isWhitespace
  match cs with
  | '-' :: rest => (leadingDigitRun rest).map (fun n => -(n : Int))
  | '+' :: rest => (leadingDigitRun rest).map (fun n => (n : Int))
  | _ => (leadingDigitRun cs).map (fun n => (n : Int))

/-- JavaScript String.prototype.split on the pipe character. -/
def splitOnPipe : List Char → List (List Char)
  | [] => [[]]
  | c :: cs =>
    if c = '|' then [] :: splitOnPipe cs
    else
      match splitOnPipe cs with
      | r :: rs => (c :: r) :: rs
      | [] => [[c]]

/-- JavaScript String.prototype.trim. -/
def trimChars (cs : List Char) : List Char :=
  ((cs.dropWhile Char.isWhitespace).reverse.dropWhile Char.isWhitespace).reverse

/-- JavaScript String.prototype.toLowerCase, on the ASCII range. -/
def lowerChars (cs : List Char) : List Char :=
  cs.map Char.toLower

/-- The parsed policy token list of auto_vote_categories, from the sources:
split("|").map((s) => s.trim()).filter(Boolean). -/
def policyTokens (s : String) : List (List Char) :=
  ((splitOnPipe s.data).map trimChars).filter (fun t => !t.isEmpty)

/-- A category record as consumed from the host site service: id, optional
slug and name, and the slug of the optional parent category. -/
structure Category where
  id : Int
  slug : Option (List Char)
  catName : Option (List Char)
  parentSlug : Option (List Char)
deriving Repr, DecidableEq

/-- The host site service: its categories array may be absent. -/
structure Site where
  categories : Option (List Category)
deriving Repr, DecidableEq

/-- site.categories.find((c) => c.id === categoryId), guarded by the
site && site.categories checks of the sources. -/
def resolveCategory (site : Option Site) (categoryId : Int) : Option Category :=
  match site with
  | none => none
  | some st =>
    match st.categories with
    | none => none
    | some cats => cats.find? (fun c => c.id == categoryId)

/-- The string-matching step of isCategoryAllowed: the lowercased policy
tokens are compared against the category slug, the category name, and the
parentSlug/slug compound path (the compound check runs only when the slug is
truthy, i.e. present and non-empty). -/
def categoryStringMatch (lowerSettings : List (List Char)) (c : Category) : Bool :=
  (match c.slug with
   | some sl => lowerSettings.contains (lowerChars sl)
   | none => false)
  ||
  (match c.catName with
   | some nm => lowerSettings.contains (lowerChars nm)
   | none => false)
  ||
  (match c.slug with
   | some sl =>
     if !sl.isEmpty then
       let fullSlug :=
         match c.parentSlug with
         | some p => p ++ '/' :: sl
         | none => sl
       lowerSettings.contains (lowerChars fullSlug)
     else false
   | none => false)

/-- The second try of isCategoryAllowed: resolve the category id through the
site service and compare the lowercased policy tokens against the record. -/
def categoryLookupFallback (categorySettings : List (List Char)) (site : Option Site)
    (categoryId : Int) : Bool :=
  let lowerSettings := categorySettings.map lowerChars
  match resolveCategory site categoryId with
  | some category => categoryStringMatch lowerSettings category
  | none => false

/-- isCategoryAllowed from part_002 (and part_001): empty or absent policy
allows everything, then a direct numeric-id match, then a slug/name/compound
lookup through the site service, otherwise deny. -/
def isCategoryAllowed (policy : Option String) (site : Option Site) (categoryId : Int) : Bool :=
  match policy with
  | none => true
  | some s =>
    if s.length == 0 then true
    else
      let categorySettings := policyTokens s
      if categorySettings.isEmpty then true
      else
        let numericIds := categorySettings.filterMap parseIntJs
        if !numericIds.isEmpty && numericIds.contains categoryId then true
        else categoryLookupFallback categorySettings site categoryId

/-- isCategoryAllowed from auto-vote-own-topic.js and part_000: purely
numeric id matching; when no token parses to a number the policy allows
everything. -/
def isCategoryAllowedNumeric (policy : Option String) (categoryId : Int) : Bool :=
  match policy with
  | none => true
  | some s =>
    if s.length == 0 then true
    else
      let allowedIds := (splitOnPipe s.data).filterMap (fun tok => parseIntJs (trimChars tok))
      if allowedIds.isEmpty then true
      else allowedIds.contains categoryId

/-- The topic attributes consumed by the component. -/
structure Topic where
  id : Int
  user_id : Int
  category_id : Int
  can_vote : Bool
  user_voted : Bool
  vote_count : Int
deriving Repr, DecidableEq

/-- Outcome of one castVote invocation, following the taxonomy the catch
block of castVote distinguishes: early skips, a successful vote, the benign
422 rejection, and any other failure status. -/
inductive VoteOutcome where
  | voted : VoteOutcome
  | skippedDisabled : VoteOutcome
  | skippedDuplicate : VoteOutcome
  | skippedServerRejected : VoteOutcome
  | failed : Nat → VoteOutcome
deriving Repr, DecidableEq

/-- Whether an outcome is one of the benign skips. -/
def isSkipped : VoteOutcome → Bool
  | VoteOutcome.skippedDisabled => true
  | VoteOutcome.skippedDuplicate => true
  | VoteOutcome.skippedServerRejected => true
  | _ => false

/-- Whether an outcome reports an unexpected failure. -/
def isFailed : VoteOutcome → Bool
  | VoteOutcome.failed _ => true
  | _ => false

/-- The environment's answer to the outbound POST /voting/vote request: a
2xx success whose body optionally carries vote_count, can_vote and
votes_left, or a failure with an HTTP status. -/
inductive VoteResponse where
  | success : Option Int → Option Bool → Option Int → VoteResponse
  | failure : Nat → VoteResponse
deriving Repr, DecidableEq

/-- Session-scoped state: the vote-attempt registry (autoVotedTopics), the
topic ids of issued outbound requests in order, the outcomes castVote
returned, the counts passed to the cosmetic UI update, and the debug log. -/
structure SessionState where
  registry : List Int
  requests : List Int
  outcomes : List VoteOutcome
  uiUpdates : List Int
  logs : List String
deriving Repr, DecidableEq

/-- State at component start: empty registry, nothing issued. -/
def initState : SessionState :=
  { registry := [], requests := [], outcomes := [], uiUpdates := [], logs := [] }

/-- The debug-gated log helper of the sources. -/
def logIf (debug : Bool) (msg : String) (logs : List String) : List String :=
  if debug then logs ++ [msg] else logs

/-- castVote from part_002: bail out when the feature is disabled, skip a
topic id already in the registry, otherwise insert the id before any I/O and
issue the request; on success compute the new count from the response (or
the topic controller model plus one) and reflect it into the UI; a 422 is
the benign rejection, any other status an unexpected failure.  ctrl is the
controller:topic model looked up inside castVote. -/
def castVoteFull (s : Settings) (ctrl : Option Topic) (topicId : Int)
    (resp : VoteResponse) (st : SessionState) : SessionState × VoteOutcome :=
  if !s.auto_vote_enabled then
    ({ st with logs := logIf s.auto_vote_debug_mode "Auto-vote is disabled" st.logs,
               outcomes := st.outcomes ++ [VoteOutcome.skippedDisabled] },
     VoteOutcome.skippedDisabled)
  else if st.registry.contains topicId then
    ({ st with logs := logIf s.auto_vote_debug_mode
                 ("Already attempted auto-vote for topic " ++ toString topicId) st.logs,
               outcomes := st.outcomes ++ [VoteOutcome.skippedDuplicate] },
     VoteOutcome.skippedDuplicate)
  else
    let st1 := { st with registry := topicId :: st.registry,
                         logs := logIf s.auto_vote_debug_mode
                           ("Casting vote for topic " ++ toString topicId) st.logs,
                         requests := st.requests ++ [topicId] }
    match resp with
    | VoteResponse.success vote_count _ _ =>
      let newVoteCount :=
        match vote_count with
        | some n => n
        | none => (match ctrl with | some t => t.vote_count | none => 0) + 1
      ({ st1 with logs := logIf s.auto_vote_debug_mode
                    ("Vote cast successfully for topic " ++ toString topicId) st1.logs,
                  uiUpdates := st1.uiUpdates ++ [newVoteCount],
                  outcomes := st1.outcomes ++ [VoteOutcome.voted] },
       VoteOutcome.voted)
    | VoteResponse.failure status =>
      if status == 422 then
        ({ st1 with logs := logIf s.auto_vote_debug_mode
                      ("Could not vote, already voted or voting not enabled: " ++ toString topicId) st1.logs,
                    outcomes := st1.outcomes ++ [VoteOutcome.skippedServerRejected] },
         VoteOutcome.skippedServerRejected)
      else
        ({ st1 with logs := logIf s.auto_vote_debug_mode
                      ("Error casting vote, status " ++ toString status) st1.logs,
                    outcomes := st1.outcomes ++ [VoteOutcome.failed status] },
         VoteOutcome.failed status)

/-- The capture of url.match against the topic pattern at one position: the
characters must read "/t/", a non-empty run without slashes, "/", then at
least one digit; the digit run is the capture. -/
def matchTopicAt : List Char → Option (List Char)
  | '/' :: 't' :: '/' :: rest =>
    let seg := rest.takeWhile (fun c => c ≠ '/')
    if seg.isEmpty then none
    else
      match rest.drop seg.length with
      | '/' :: rest2 =>
        let ds := rest2.takeWhile Char.isDigit
        if ds.isEmpty then none else some ds
      | _ => none
  | _ => none

/-- Leftmost match of the topic pattern, scanning every start position. -/
def scanTopicPattern : List Char → Option (List Char)
  | [] => none
  | c :: cs =>
    match matchTopicAt (c :: cs) with
    | some ds => some ds
    | none => scanTopicPattern cs

/-- url.match(pattern) with pattern slash t slash [^/]+ slash (digits):
the numeric value of the first capture, or none when the url does not
contain the topic pattern. -/
def topicUrlMatch (url : String) : Option Int :=
  (scanTopicPattern url.data).map (fun ds => (digitsVal ds : Int))

/-- The decision of the onPageChange handler of part_002 after the settling
delay: which topic id, if any, castVote is invoked with.  none when the url
does not match the topic pattern, when the store yields no topic, or when
the ownership / can_vote / user_voted / category checks fail. -/
def pageChangeAttempt (s : Settings) (site : Option Site) (uid : Int)
    (url : String) (store : Option Topic) : Option Int :=
  match topicUrlMatch url with
  | none => none
  | some _ =>
    match store with
    | none => none
    | some topic =>
      if topic.user_id == uid && topic.can_vote && !topic.user_voted
          && isCategoryAllowed s.auto_vote_categories site topic.category_id then
        some topic.id
      else none

/-- External triggers of one session: a creation notification carrying the
new topic id and category id (part_000's topic:created handler) and a
navigation arrival carrying the destination url and the topic the host store
returns after the settling delay.  Each also carries the environment's
response to a request, should one be issued, and the creation event carries
the controller:topic model castVote would read. -/
inductive Event where
  | creation : Int → Int → Option Topic → VoteResponse → Event
  | pageChange : String → Option Topic → VoteResponse → Event

/-- One trigger firing: the creation handler checks the category policy then
funnels into castVote; the navigation handler funnels into castVote exactly
when pageChangeAttempt produces a topic id. -/
def stepEvent (s : Settings) (uid : Int) (site : Option Site)
    (st : SessionState) : Event → SessionState
  | Event.creation topicId categoryId ctrl resp =>
    if isCategoryAllowedNumeric s.auto_vote_categories categoryId then
      (castVoteFull s ctrl topicId resp st).1
    else st
  | Event.pageChange url store resp =>
    match pageChangeAttempt s site uid url store with
    | some topicId => (castVoteFull s store topicId resp st).1
    | none => st

/-- A whole session: fold the triggers over the initial state. -/
def runSession (s : Settings) (uid : Int) (site : Option Site)
    (events : List Event) : SessionState :=
  events.foldl (stepEvent s uid site) initState

/-- The initializer: when getCurrentUser yields no user it returns before
registering any trigger, so the events are never observed; otherwise the
session runs. -/
def runComponent (currentUser : Option Int) (s : Settings) (site : Option Site)
    (events : List Event) : SessionState :=
  match currentUser with
  | none => initState
  | some uid => runSession s uid site events

/-- The behavior of a session visible outside of diagnostic logging:
registry, issued requests, outcomes and UI updates. -/
def observables (st : SessionState) : List Int × List Int × List VoteOutcome × List Int :=
  (st.registry, st.requests, st.outcomes, st.uiUpdates)

/-- checkAndVote from auto-vote-own-topic.js: the guard run before castVote,
returning whether castVote is invoked.  It checks, in order: the enabled
flag, presence of a topic model, the session registry, topic ownership, the
can_vote flag, the user_voted flag, and the category policy. -/
def checkAndVote (s : Settings) (currentUserId : Int) (registry : List Int)
    (topic : Option Topic) : Bool :=
  if !s.auto_vote_enabled then false
  else
    match topic with
    | none => false
    | some t =>
      if registry.contains t.id then false
      else if t.user_id != currentUserId then false
      else if !t.can_vote then false
      else if t.user_voted then false
      else if !isCategoryAllowedNumeric s.auto_vote_categories t.category_id then false
      else true

/-- The span inside the vote button. -/
structure ButtonSpan where
  textContent : List Char
deriving Repr, DecidableEq

/-- The .vote-button element: its class list and optional inner span. -/
structure VoteButton where
  classes : List String
  span : Option ButtonSpan
deriving Repr, DecidableEq

/-- The DOM surface updateVoteUI touches; every element is optional and an
absent element only skips the corresponding cosmetic step. -/
structure Dom where
  voteCountNumber : Option (List Char)
  voteButton : Option VoteButton
  votingWrapper : Option (List String)
deriving Repr, DecidableEq

/-- classList.remove. -/
def classRemove (cls : String) (l : List String) : List String :=
  l.filter (fun c => c ≠ cls)

/-- classList.add: appends only when absent. -/
def classAdd (cls : String) (l : List String) : List String :=
  if l.contains cls then l else l ++ [cls]

/-- JavaScript String.prototype.includes as a substring test. -/
def charsInclude (needle : List Char) : List Char → Bool
  | [] => needle.isEmpty
  | c :: cs => needle.isPrefixOf (c :: cs) || charsInclude needle cs

/-- textContent.toLowerCase().includes("vote"). -/
def textMentionsVote (t : List Char) : Bool :=
  charsInclude "vote".data (lowerChars t)

/-- The decimal rendering of the vote count written into textContent. -/
def renderCount (n : Int) : List Char :=
  (toString n).data

/-- updateVoteUI from part_002 / part_001: set the count display, flip the
vote button classes from nonvote to vote and relabel its span when the label
mentions vote, and flip the wrapper classes; each step is skipped when its
element is absent. -/
def updateVoteUI (voteCount : Int) (dom : Dom) : Dom :=
  let d1 := { dom with voteCountNumber := dom.voteCountNumber.map (fun _ => renderCount voteCount) }
  let d2 := { d1 with voteButton := d1.voteButton.map (fun (vb : VoteButton) =>
      { vb with classes := classAdd "vote" (classRemove "nonvote" vb.classes),
                span := vb.span.map (fun (sp : ButtonSpan) =>
                  if textMentionsVote sp.textContent then { sp with textContent := "Voted".data }
                  else sp) }) }
  { d2 with votingWrapper := d2.votingWrapper.map (fun cl => classAdd "vote" (classRemove "nonvote" cl)) }

/-! ### Helper lemmas -/

theorem contains_false_not_mem {l : List Int} {a : Int} (h : l.contains a = false) : a ∉ l := by
  simpa using h

theorem castVote_shape (s : Settings) (ctrl : Option Topic) (tid : Int)
    (resp : VoteResponse) (st : SessionState) :
    ((castVoteFull s ctrl tid resp st).1.requests = st.requests ∧
     (castVoteFull s ctrl tid resp st).1.registry = st.registry) ∨
    (st.registry.contains tid = false ∧
     (castVoteFull s ctrl tid resp st).1.requests = st.requests ++ [tid] ∧
     (castVoteFull s ctrl tid resp st).1.registry = tid :: st.registry) := by
  unfold castVoteFull
  cases hen : s.auto_vote_enabled
  · left
    simp
  · cases hreg : st.registry.contains tid
    · cases resp with
      | success a b c =>
        right
        simp [hreg]
      | failure status =>
        cases h422 : status == 422 <;>
        · right
          simp [hreg, h422]
    · left
      simp [hreg]

theorem step_shape (s : Settings) (uid : Int) (site : Option Site)
    (st : SessionState) (e : Event) :
    ((stepEvent s uid site st e).requests = st.requests ∧
     (stepEvent s uid site st e).registry = st.registry) ∨
    (∃ tid, st.registry.contains tid = false ∧
      (stepEvent s uid site st e).requests = st.requests ++ [tid] ∧
      (stepEvent s uid site st e).registry = tid :: st.registry) := by
  cases e with
  | creation topicId categoryId ctrl resp =>
    unfold stepEvent
    cases hca : isCategoryAllowedNumeric s.auto_vote_categories categoryId
    · left
      simp [hca]
    · rcases castVote_shape s ctrl topicId resp st with ⟨h1, h2⟩ | ⟨h0, h1, h2⟩
      · left
        simp [hca, h1, h2]
      · right
        exact ⟨topicId, h0, by simp [hca, h1], by simp [hca, h2]⟩
  | pageChange url store resp =>
    unfold stepEvent
    cases hpa : pageChangeAttempt s site uid url store with
    | none =>
      left
      simp [hpa]
    | some tid =>
      rcases castVote_shape s store tid resp st with ⟨h1, h2⟩ | ⟨h0, h1, h2⟩
      · left
        simp [hpa, h1, h2]
      · right
        exact ⟨tid, h0, by simp [hpa, h1], by simp [hpa, h2]⟩

/-- The per-topic invariant carried through a session: at most one request
issued for t so far, and a request for t implies t is registered. -/
def ReqInv (t : Int) (st : SessionState) : Prop :=
  st.requests.count t ≤ 1 ∧ (t ∈ st.requests → t ∈ st.registry)

theorem step_req_inv (s : Settings) (uid : Int) (site : Option Site) (t : Int)
    (st : SessionState) (e : Event) (h : ReqInv t st) :
    ReqInv t (stepEvent s uid site st e) := by
  obtain ⟨hcount, hmem⟩ := h
  rcases step_shape s uid site st e with ⟨h1, h2⟩ | ⟨tid, h0, h1, h2⟩
  · exact ⟨by rw [h1]; exact hcount, by rw [h1, h2]; exact hmem⟩
  · constructor
    · rw [h1, List.count_append]
      by_cases hteq : t = tid
      · subst hteq
        have hnotreg : t ∉ st.registry := contains_false_not_mem h0
        have hnotreq : t ∉ st.requests := fun hin => hnotreg (hmem hin)
        rw [List.count_eq_zero.mpr hnotreq]
        simp
      · have hz : List.count t [tid] = 0 := by
          refine List.count_eq_zero.mpr ?_
          simp [hteq]
        rw [hz]
        omega
    · intro hin
      rw [h2]
      rw [h1] at hin
      rcases List.mem_append.mp hin with hin' | hin'
      · exact List.mem_cons_of_mem _ (hmem hin')
      · have : t = tid := by simpa using hin'
        subst this
        exact List.mem_cons_self _ _

theorem run_req_inv (s : Settings) (uid : Int) (site : Option Site) (t : Int) :
    ∀ (events : List Event) (st : SessionState), ReqInv t st →
      ReqInv t (events.foldl (stepEvent s uid site) st)
  | [], st, h => by simpa using h
  | e :: evs, st, h => by
    rw [List.foldl_cons]
    exact run_req_inv s uid site t evs _ (step_req_inv s uid site t st e h)

/-! ### Claims -/

/-- C1: checkAndVote, the guard before a vote attempt, reaches the castVote
call (returns true) if and only if the feature is enabled, the topic creator
is the acting user, can_vote is set, user_voted is clear, and the category
policy allows the topic category; in every other case it returns false.  The
guard is a total function, so no exception can escape it. -/
theorem claim_C1_shouldVote_iff (s : Settings) (uid : Int) (registry : List Int)
    (t : Topic) (hreg : registry.contains t.id = false) :
    checkAndVote s uid registry (some t) = true ↔
      (s.auto_vote_enabled = true ∧ t.user_id = uid ∧ t.can_vote = true ∧
       t.user_voted = false ∧
       isCategoryAllowedNumeric s.auto_vote_categories t.category_id = true) := by
  unfold checkAndVote
  cases hen : s.auto_vote_enabled <;>
    cases hcv : t.can_vote <;>
      cases huv : t.user_voted <;>
        cases hca : isCategoryAllowedNumeric s.auto_vote_categories t.category_id <;>
          by_cases hid : t.user_id = uid <;>
            simp [contains_false_not_mem hreg, hen, hcv, huv, hca, hid, bne_iff_ne]

theorem claim_C1_shouldVote_iff_witness :
    checkAndVote ⟨true, some "5|9", false⟩ 42 [] (some ⟨10, 42, 5, true, false, 0⟩) = true ↔
      ((true : Bool) = true ∧ (42 : Int) = 42 ∧ (true : Bool) = true ∧
       (false : Bool) = false ∧ isCategoryAllowedNumeric (some "5|9") 5 = true) :=
  claim_C1_shouldVote_iff ⟨true, some "5|9", false⟩ 42 [] ⟨10, 42, 5, true, false, 0⟩ (by decide)

/-- C4: an absent or empty category policy allows every category id; the
numeric policy 5|9 allows category ids 5 and 9 and denies category id 7
whenever the fallback string lookup for id 7 yields no match; the purely
numeric variant of the check denies id 7 outright. -/
theorem claim_C4_policy_cases (site : Option Site) (c : Int) :
    isCategoryAllowed none site c = true ∧
    isCategoryAllowed (some "") site c = true ∧
    isCategoryAllowed (some "5|9") site 5 = true ∧
    isCategoryAllowed (some "5|9") site 9 = true ∧
    (categoryLookupFallback (policyTokens "5|9") site 7 = false →
      isCategoryAllowed (some "5|9") site 7 = false) ∧
    isCategoryAllowedNumeric none c = true ∧
    isCategoryAllowedNumeric (some "") c = true ∧
    isCategoryAllowedNumeric (some "5|9") 5 = true ∧
    isCategoryAllowedNumeric (some "5|9") 9 = true ∧
    isCategoryAllowedNumeric (some "5|9") 7 = false :=
  ⟨rfl, rfl, rfl, rfl, fun h => h, rfl, rfl, rfl, rfl, rfl⟩

theorem claim_C4_policy_cases_witness :
    isCategoryAllowed (some "5|9") none 7 = false ∧ isCategoryAllowed none none 0 = true :=
  ⟨(claim_C4_policy_cases none 0).2.2.2.2.1 (by decide), (claim_C4_policy_cases none 0).1⟩

/-- C5: when the outbound request fails with HTTP status 422, castVote
settles on the benign server-rejected skip, not on a failure; the outcome is
delivered as a return value (the function is total), so nothing is raised
across the trigger boundary. -/
theorem claim_C5_422_is_skip (s : Settings) (ctrl : Option Topic) (t : Int)
    (st : SessionState) (hen : s.auto_vote_enabled = true)
    (hreg : st.registry.contains t = false) :
    (castVoteFull s ctrl t (VoteResponse.failure 422) st).2 = VoteOutcome.skippedServerRejected ∧
    isSkipped (castVoteFull s ctrl t (VoteResponse.failure 422) st).2 = true ∧
    isFailed (castVoteFull s ctrl t (VoteResponse.failure 422) st).2 = false := by
  unfold castVoteFull
  simp [hen, contains_false_not_mem hreg, isSkipped, isFailed]

theorem claim_C5_422_is_skip_witness :
    (castVoteFull ⟨true, none, false⟩ none 7 (VoteResponse.failure 422) initState).2 =
        VoteOutcome.skippedServerRejected ∧
    isSkipped (castVoteFull ⟨true, none, false⟩ none 7 (VoteResponse.failure 422) initState).2 = true ∧
    isFailed (castVoteFull ⟨true, none, false⟩ none 7 (VoteResponse.failure 422) initState).2 = false :=
  claim_C5_422_is_skip ⟨true, none, false⟩ none 7 initState rfl (by decide)

/-- C10: when no user is logged in the initializer returns before wiring any
trigger, so whatever navigation or creation events occur, no request is
issued, the registry stays untouched (empty), no outcome is produced and no
UI reflection happens. -/
theorem claim_C10_no_user_no_effect (s : Settings) (site : Option Site)
    (events : List Event) :
    (runComponent none s site events).requests = [] ∧
    (runComponent none s site events).registry = [] ∧
    (runComponent none s site events).outcomes = [] ∧
    (runComponent none s site events).uiUpdates = [] :=
  ⟨rfl, rfl, rfl, rfl⟩

/-- C2: per session and topic id t, at most one outbound vote request is
issued for t, whatever mix of creation and navigation triggers fires and in
whatever order; and castVote consults the registry before any I/O, so an
invocation finding t already registered issues no request, changes nothing
and reports the duplicate skip (the duplicate outcome assumes the enabled
gate, which precedes the registry check, has passed). -/
theorem claim_C2_at_most_one_request (s : Settings) (uid : Int) (site : Option Site)
    (events : List Event) (t : Int) :
    (runSession s uid site events).requests.count t ≤ 1 ∧
    (∀ (st : SessionState) (ctrl : Option Topic) (resp : VoteResponse),
      st.registry.contains t = true →
        (castVoteFull s ctrl t resp st).1.requests = st.requests ∧
        (castVoteFull s ctrl t resp st).1.registry = st.registry ∧
        (s.auto_vote_enabled = true →
          (castVoteFull s ctrl t resp st).2 = VoteOutcome.skippedDuplicate)) := by
  constructor
  · have hinit : ReqInv t initState := by
      constructor
      · simp [initState]
      · intro hm
        simp [initState] at hm
    exact (run_req_inv s uid site t events initState hinit).1
  · intro st ctrl resp hreg
    have hmem : t ∈ st.registry := by simpa using hreg
    unfold castVoteFull
    cases hen : s.auto_vote_enabled <;> simp [hen, hmem]

theorem claim_C2_at_most_one_request_witness :
    (runSession ⟨true, none, false⟩ 42 none
        [Event.creation 7 3 none (VoteResponse.success none none none),
         Event.pageChange "/t/x-y/7" (some ⟨7, 42, 3, true, false, 0⟩)
           (VoteResponse.success none none none)]).requests.count 7 ≤ 1 ∧
    ((castVoteFull ⟨true, none, false⟩ none 7 (VoteResponse.failure 500)
        { registry := [7], requests := [7], outcomes := [], uiUpdates := [], logs := [] }).1.requests = [7] ∧
     (castVoteFull ⟨true, none, false⟩ none 7 (VoteResponse.failure 500)
        { registry := [7], requests := [7], outcomes := [], uiUpdates := [], logs := [] }).1.registry = [7] ∧
     ((true : Bool) = true →
       (castVoteFull ⟨true, none, false⟩ none 7 (VoteResponse.failure 500)
          { registry := [7], requests := [7], outcomes := [], uiUpdates := [], logs := [] }).2 =
         VoteOutcome.skippedDuplicate)) :=
  ⟨(claim_C2_at_most_one_request ⟨true, none, false⟩ 42 none
      [Event.creation 7 3 none (VoteResponse.success none none none),
       Event.pageChange "/t/x-y/7" (some ⟨7, 42, 3, true, false, 0⟩)
         (VoteResponse.success none none none)] 7).1,
   (claim_C2_at_most_one_request ⟨true, none, false⟩ 42 none [] 7).2
     { registry := [7], requests := [7], outcomes := [], uiUpdates := [], logs := [] }
     none (VoteResponse.failure 500) (by decide)⟩

/-- C6: an outbound request answered by a failure status other than 422
yields the failed outcome carrying that status, the topic id stays in the
registry, the request was issued; afterwards no event can issue another
request for that id and every later castVote for it reports the duplicate
skip without touching the request list — no retry within the session. -/
theorem claim_C6_failure_no_retry (s : Settings) (uid : Int) (site : Option Site)
    (ctrl : Option Topic) (t : Int) (st : SessionState) (status : Nat)
    (hen : s.auto_vote_enabled = true) (hreg : st.registry.contains t = false)
    (h422 : status ≠ 422) :
    (castVoteFull s ctrl t (VoteResponse.failure status) st).2 = VoteOutcome.failed status ∧
    (castVoteFull s ctrl t (VoteResponse.failure status) st).1.registry.contains t = true ∧
    (castVoteFull s ctrl t (VoteResponse.failure status) st).1.requests = st.requests ++ [t] ∧
    (∀ (st2 : SessionState) (e : Event), st2.registry.contains t = true →
      (stepEvent s uid site st2 e).registry.contains t = true ∧
      (stepEvent s uid site st2 e).requests.count t = st2.requests.count t) ∧
    (∀ (st2 : SessionState) (ctrl2 : Option Topic) (resp2 : VoteResponse),
      st2.registry.contains t = true →
        (castVoteFull s ctrl2 t resp2 st2).2 = VoteOutcome.skippedDuplicate ∧
        (castVoteFull s ctrl2 t resp2 st2).1.requests = st2.requests) := by
  have hb : (status == 422) = false := by
    simpa using h422
  refine ⟨?_, ?_, ?_, ?_, ?_⟩
  · unfold castVoteFull
    simp [hen, contains_false_not_mem hreg, hb]
  · unfold castVoteFull
    simp [hen, contains_false_not_mem hreg, hb]
  · unfold castVoteFull
    simp [hen, contains_false_not_mem hreg, hb]
  · intro st2 e hreg2
    have hmem2 : t ∈ st2.registry := by simpa using hreg2
    rcases step_shape s uid site st2 e with ⟨h1, h2⟩ | ⟨tid, h0, h1, h2⟩
    · constructor
      · rw [h2]
        exact hreg2
      · rw [h1]
    · have hne : tid ≠ t := fun hEq => contains_false_not_mem h0 (hEq ▸ hmem2)
      constructor
      · rw [h2]
        simpa using Or.inr hmem2
      · rw [h1, List.count_append]
        have hz : List.count t [tid] = 0 := by
          refine List.count_eq_zero.mpr ?_
          simp [Ne.symm hne]
        rw [hz]
        omega
  · intro st2 ctrl2 resp2 hreg2
    have hmem2 : t ∈ st2.registry := by simpa using hreg2
    unfold castVoteFull
    simp [hen, hmem2]

theorem claim_C6_failure_no_retry_witness :
    (castVoteFull ⟨true, none, false⟩ none 7 (VoteResponse.failure 500) initState).2 =
        VoteOutcome.failed 500 ∧
    (castVoteFull ⟨true, none, false⟩ none 7 (VoteResponse.failure 500) initState).1.registry.contains 7 = true ∧
    (castVoteFull ⟨true, none, false⟩ none 7 (VoteResponse.failure 500) initState).1.requests = initState.requests ++ [7] ∧
    (∀ (st2 : SessionState) (e : Event), st2.registry.contains 7 = true →
      (stepEvent ⟨true, none, false⟩ 42 none st2 e).registry.contains 7 = true ∧
      (stepEvent ⟨true, none, false⟩ 42 none st2 e).requests.count 7 = st2.requests.count 7) ∧
    (∀ (st2 : SessionState) (ctrl2 : Option Topic) (resp2 : VoteResponse),
      st2.registry.contains 7 = true →
        (castVoteFull ⟨true, none, false⟩ ctrl2 7 resp2 st2).2 = VoteOutcome.skippedDuplicate ∧
        (castVoteFull ⟨true, none, false⟩ ctrl2 7 resp2 st2).1.requests = st2.requests) :=
  claim_C6_failure_no_retry ⟨true, none, false⟩ 42 none none 7 initState 500 rfl (by decide) (by decide)

/-- C3: with a non-empty token list and a category id whose numeric form is
not in the numeric subset of the policy, isCategoryAllowed returns true
exactly when the id resolves to a category record matching some policy
string case-insensitively on slug, name, or the parentSlug/slug compound
path; an unresolved id or a record without a match is denied. -/
theorem claim_C3_string_policy (s : String) (site : Option Site) (c : Int)
    (htk : policyTokens s ≠ [])
    (hnum : ((policyTokens s).filterMap parseIntJs).contains c = false) :
    isCategoryAllowed (some s) site c = true ↔
      ∃ cat, resolveCategory site c = some cat ∧
        categoryStringMatch ((policyTokens s).map lowerChars) cat = true := by
  have hlen : (s.length == 0) = false := by
    cases h : s.length == 0
    · rfl
    · exfalso
      have h0 : s.length = 0 := by simpa using h
      have hdata : s.data = [] := List.eq_nil_of_length_eq_zero h0
      apply htk
      unfold policyTokens
      rw [hdata]
      rfl
  have hemp : (policyTokens s).isEmpty = false := by
    cases h : (policyTokens s).isEmpty
    · rfl
    · exact absurd (List.isEmpty_iff.mp h) htk
  unfold isCategoryAllowed
  simp only [hlen, hemp, hnum, Bool.and_false, Bool.false_eq_true, if_false]
  unfold categoryLookupFallback
  cases hres : resolveCategory site c with
  | none => simp [hres]
  | some cat => simp [hres]

theorem claim_C3_string_policy_witness :
    isCategoryAllowed (some "support") (some ⟨some [⟨3, some "Support".data, none, none⟩]⟩) 3 = true ↔
      ∃ cat, resolveCategory (some ⟨some [⟨3, some "Support".data, none, none⟩]⟩) 3 = some cat ∧
        categoryStringMatch ((policyTokens "support").map lowerChars) cat = true :=
  claim_C3_string_policy "support" (some ⟨some [⟨3, some "Support".data, none, none⟩]⟩) 3
    (by decide) (by decide)

/-- C7: a navigation event whose destination matches the topic url pattern
and whose store lookup yields, after the settling delay, an owned, votable,
not-yet-voted topic with the extracted id in an allowed category triggers
exactly one castVote call, with that id; a non-matching path or a missing
topic triggers none. -/
theorem claim_C7_navigation_trigger (s : Settings) (site : Option Site) (uid : Int)
    (url : String) (store : Option Topic) (n : Int) (topic : Topic)
    (st : SessionState) (resp : VoteResponse) :
    (topicUrlMatch url = some n → store = some topic → topic.id = n →
     topic.user_id = uid → topic.can_vote = true → topic.user_voted = false →
     isCategoryAllowed s.auto_vote_categories site topic.category_id = true →
       pageChangeAttempt s site uid url store = some n ∧
       stepEvent s uid site st (Event.pageChange url store resp) =
         (castVoteFull s store n resp st).1) ∧
    (topicUrlMatch url = none →
       pageChangeAttempt s site uid url store = none ∧
       stepEvent s uid site st (Event.pageChange url store resp) = st) ∧
    (pageChangeAttempt s site uid url none = none ∧
     stepEvent s uid site st (Event.pageChange url none resp) = st) := by
  refine ⟨?_, ?_, ?_⟩
  · intro hm hs hid huid hcv huv hcat
    subst hs
    subst hid
    have hpa : pageChangeAttempt s site uid url (some topic) = some topic.id := by
      unfold pageChangeAttempt
      simp [hm, huid, hcv, huv, hcat]
    refine ⟨hpa, ?_⟩
    unfold stepEvent
    simp [hpa]
  · intro hm
    have hpa : pageChangeAttempt s site uid url store = none := by
      unfold pageChangeAttempt
      simp [hm]
    refine ⟨hpa, ?_⟩
    unfold stepEvent
    simp [hpa]
  · have hpa : pageChangeAttempt s site uid url none = none := by
      unfold pageChangeAttempt
      cases hm : topicUrlMatch url <;> simp [hm]
    refine ⟨hpa, ?_⟩
    unfold stepEvent
    simp [hpa]

theorem claim_C7_navigation_trigger_witness :
    pageChangeAttempt ⟨true, none, false⟩ none 42 "https://forum.example.com/t/some-slug/1234"
        (some ⟨1234, 42, 3, true, false, 0⟩) = some 1234 ∧
    stepEvent ⟨true, none, false⟩ 42 none initState
        (Event.pageChange "https://forum.example.com/t/some-slug/1234"
          (some ⟨1234, 42, 3, true, false, 0⟩) (VoteResponse.success none none none)) =
      (castVoteFull ⟨true, none, false⟩ (some ⟨1234, 42, 3, true, false, 0⟩) 1234
        (VoteResponse.success none none none) initState).1 :=
  (claim_C7_navigation_trigger ⟨true, none, false⟩ none 42
      "https://forum.example.com/t/some-slug/1234" (some ⟨1234, 42, 3, true, false, 0⟩)
      1234 ⟨1234, 42, 3, true, false, 0⟩ initState (VoteResponse.success none none none)).1
    (by decide) rfl rfl rfl rfl rfl rfl

theorem classRemove_idem (cls : String) (l : List String) :
    classRemove cls (classRemove cls l) = classRemove cls l := by
  unfold classRemove
  rw [List.filter_filter]
  simp

theorem voteClasses_idem (l : List String) :
    classAdd "vote" (classRemove "nonvote" (classAdd "vote" (classRemove "nonvote" l))) =
      classAdd "vote" (classRemove "nonvote" l) := by
  have hrm : classRemove "nonvote" (classRemove "nonvote" l) = classRemove "nonvote" l :=
    classRemove_idem _ _
  have happ : classRemove "nonvote" (classRemove "nonvote" l ++ ["vote"]) =
      classRemove "nonvote" l ++ ["vote"] := by
    unfold classRemove
    rw [List.filter_append]
    have hfv : List.filter (fun c => decide (c ≠ "nonvote")) ["vote"] = ["vote"] := by decide
    rw [hfv]
    have hrm' := hrm
    unfold classRemove at hrm'
    rw [hrm']
  by_cases hc : "vote" ∈ classRemove "nonvote" l
  · simp [classAdd, hc, hrm]
  · simp [classAdd, hc, hrm, happ]

/-- C8: updateVoteUI is idempotent for a fixed count — running it twice
leaves the presentation state exactly as one run — and it is a total
function for which every absent element only skips its cosmetic step, as the
all-absent surface shows. -/
theorem claim_C8_reflect_idempotent (n : Int) (d : Dom) :
    updateVoteUI n (updateVoteUI n d) = updateVoteUI n d ∧
    updateVoteUI n { voteCountNumber := none, voteButton := none, votingWrapper := none } =
      { voteCountNumber := none, voteButton := none, votingWrapper := none } := by
  constructor
  · obtain ⟨vcn, vb, vw⟩ := d
    have hvoted : textMentionsVote "Voted".data = true := by decide
    cases vb with
    | none =>
      cases vcn <;> cases vw <;>
        simp [updateVoteUI, voteClasses_idem, hvoted]
    | some b =>
      obtain ⟨cls, sp⟩ := b
      cases sp with
      | none =>
        cases vcn <;> cases vw <;>
          simp [updateVoteUI, voteClasses_idem, hvoted]
      | some spv =>
        by_cases hv : textMentionsVote spv.textContent = true <;>
          cases vcn <;> cases vw <;>
            simp [updateVoteUI, voteClasses_idem, hvoted, hv]
  · rfl

theorem castVote_debug_independent (e : Bool) (c : Option String) (d1 d2 : Bool)
    (ctrl : Option Topic) (tid : Int) (resp : VoteResponse)
    (reg req : List Int) (out : List VoteOutcome) (ui : List Int)
    (logs1 logs2 : List String) :
    observables (castVoteFull ⟨e, c, d1⟩ ctrl tid resp ⟨reg, req, out, ui, logs1⟩).1 =
      observables (castVoteFull ⟨e, c, d2⟩ ctrl tid resp ⟨reg, req, out, ui, logs2⟩).1 ∧
    (castVoteFull ⟨e, c, d1⟩ ctrl tid resp ⟨reg, req, out, ui, logs1⟩).2 =
      (castVoteFull ⟨e, c, d2⟩ ctrl tid resp ⟨reg, req, out, ui, logs2⟩).2 := by
  unfold castVoteFull
  cases e
  · simp [observables]
  · by_cases hreg : tid ∈ reg
    · simp [observables, hreg]
    · cases resp with
      | success a b cc => simp [observables, hreg]
      | failure status =>
        cases h422 : status == 422 <;> simp [observables, hreg, h422]

theorem pageChangeAttempt_debug_independent (e1 e2 : Bool) (c : Option String)
    (d1 d2 : Bool) (site : Option Site) (uid : Int) (url : String)
    (store : Option Topic) :
    pageChangeAttempt ⟨e1, c, d1⟩ site uid url store =
      pageChangeAttempt ⟨e2, c, d2⟩ site uid url store := rfl

theorem step_debug_independent (e : Bool) (c : Option String) (d1 d2 : Bool)
    (uid : Int) (site : Option Site) (st1 st2 : SessionState)
    (h : observables st1 = observables st2) (ev : Event) :
    observables (stepEvent ⟨e, c, d1⟩ uid site st1 ev) =
      observables (stepEvent ⟨e, c, d2⟩ uid site st2 ev) := by
  obtain ⟨reg1, req1, out1, ui1, logs1⟩ := st1
  obtain ⟨reg2, req2, out2, ui2, logs2⟩ := st2
  simp only [observables, Prod.mk.injEq] at h
  obtain ⟨h1, h2, h3, h4⟩ := h
  subst h1
  subst h2
  subst h3
  subst h4
  cases ev with
  | creation tid cid ctrl resp =>
    unfold stepEvent
    by_cases hca : isCategoryAllowedNumeric c cid = true
    · simpa [hca] using
        (castVote_debug_independent e c d1 d2 ctrl tid resp reg1 req1 out1 ui1 logs1 logs2).1
    · simp [hca, observables]
  | pageChange url store resp =>
    unfold stepEvent
    dsimp only
    rw [pageChangeAttempt_debug_independent e e c d2 d1 site uid url store]
    cases hpa : pageChangeAttempt ⟨e, c, d1⟩ site uid url store with
    | none => simp [hpa, observables]
    | some tid =>
      simpa [hpa] using
        (castVote_debug_independent e c d1 d2 store tid resp reg1 req1 out1 ui1 logs1 logs2).1

theorem run_debug_independent (e : Bool) (c : Option String) (d1 d2 : Bool)
    (uid : Int) (site : Option Site) :
    ∀ (events : List Event) (st1 st2 : SessionState),
      observables st1 = observables st2 →
        observables (events.foldl (stepEvent ⟨e, c, d1⟩ uid site) st1) =
          observables (events.foldl (stepEvent ⟨e, c, d2⟩ uid site) st2)
  | [], st1, st2, h => by simpa using h
  | ev :: evs, st1, st2, h => by
    rw [List.foldl_cons, List.foldl_cons]
    exact run_debug_independent e c d1 d2 uid site evs _ _
      (step_debug_independent e c d1 d2 uid site st1 st2 h ev)

/-- C9: two sessions whose settings agree on the enabled flag and the
category policy and differ only in auto_vote_debug_mode observe the same
events into the same registry, the same issued requests, the same outcomes
and the same UI updates — the debug flag gates diagnostic logging only. -/
theorem claim_C9_debug_no_behavioral_effect (s1 s2 : Settings) (uid : Int)
    (site : Option Site) (events : List Event)
    (hen : s1.auto_vote_enabled = s2.auto_vote_enabled)
    (hcat : s1.auto_vote_categories = s2.auto_vote_categories) :
    observables (runSession s1 uid site events) =
      observables (runSession s2 uid site events) := by
  obtain ⟨e1, c1, d1⟩ := s1
  obtain ⟨e2, c2, d2⟩ := s2
  simp only at hen hcat
  subst hen
  subst hcat
  unfold runSession
  exact run_debug_independent e1 c1 d1 d2 uid site events initState initState rfl

theorem claim_C9_debug_no_behavioral_effect_witness :
    observables (runSession ⟨true, some "5|9", true⟩ 42 none
        [Event.creation 7 5 none (VoteResponse.success none none none),
         Event.pageChange "/t/x-y/7" (some ⟨7, 42, 5, true, false, 0⟩)
           (VoteResponse.success none none none)]) =
      observables (runSession ⟨true, some "5|9", false⟩ 42 none
        [Event.creation 7 5 none (VoteResponse.success none none none),
         Event.pageChange "/t/x-y/7" (some ⟨7, 42, 5, true, false, 0⟩)
           (VoteResponse.success none none none)]) :=
  claim_C9_debug_no_behavioral_effect ⟨true, some "5|9", true⟩ ⟨true, some "5|9", false⟩
    42 none
    [Event.creation 7 5 none (VoteResponse.success none none none),
     Event.pageChange "/t/x-y/7" (some ⟨7, 42, 5, true, false, 0⟩)
       (VoteResponse.success none none none)] rfl rfl
